import Mathlib

/-!
Verification development for the dea-notebooks beginners guide
(src/Beginners_guide/04_Loading_data.ipynb).

The notebook is a tutorial whose only operation is a sequence of calls to
the Open Data Cube load function `dc.load`.  That function is implemented
in the external `datacube` library, not in this repository, so the load
operation below is modelled from the specification of the query/load
contract (spec sections 3, 4 and 8): recognized query keys, the default
interpretations of absent keys, the shape of the returned labelled array
collection, per-measurement resampling with a wildcard fallback, and the
"like" template mechanism.
-/

/-- Spatial coordinates are modelled as exact integers (coordinates in the
smallest unit of the reference system in use). -/
abbrev Coord := ℤ

/-- A rectangular spatial extent: bounds on the x axis and on the y axis. -/
structure Extent where
  x : Coord × Coord
  y : Coord × Coord
deriving DecidableEq

/-- A temporal extent, a start / stop pair of date strings. -/
structure TimeRange where
  start : String
  stop : String
deriving DecidableEq

/-- A measurement (satellite band) a product defines: its name and the
nodata sentinel stored with it. -/
structure Measurement where
  name : String
  nodata : Int
deriving DecidableEq

/-- A data product known to the datacube index: its native CRS, native
resolution (row pixel size, column pixel size) and the measurements it
defines. -/
structure Product where
  name : String
  crs : String
  resolution : Int × Int
  measurements : List Measurement
deriving DecidableEq

/-- One per-measurement sub-array of a loaded result (an xarray.DataArray):
it carries the measurement name, a nodata sentinel, a units attribute, a
coordinate-reference-system attribute and the pixel values. -/
structure DataArray where
  name : String
  nodata : Int
  units : String
  crs : String
  values : List Int
deriving DecidableEq

/-- A loaded result (an xarray.Dataset): a labelled container keyed by the
time and two spatial dimensions, with a crs attribute, the grid resolution
it was built on, and one sub-array per requested measurement. -/
structure Dataset where
  tdim : Nat
  ydim : Nat
  xdim : Nat
  crs : String
  resolution : Int × Int
  dataVars : List DataArray
deriving DecidableEq

/-- The resampling argument of a load call: absent (the default,
nearest-neighbour), a single method for every measurement, or a
per-measurement mapping with a `"*"` wildcard fallback. -/
inductive Resampling where
  | dflt : Resampling
  | scalar (method : String) : Resampling
  | byBand (table : List (String × String)) : Resampling
deriving DecidableEq

/-- Modelled from the spec: the resampling method used for one measurement.
Absent resampling means nearest neighbour; a scalar applies to every
measurement; a per-measurement table uses the entry keyed by the
measurement name when present and otherwise the `"*"` wildcard entry,
falling back to nearest neighbour. -/
def Resampling.resolve : Resampling → String → String
  | .dflt, _ => "nearest"
  | .scalar m, _ => m
  | .byBand t, band =>
    match t.lookup band with
    | some m => m
    | none => (t.lookup "*").getD "nearest"

/-- A query, as the notebook builds one for `dc.load`: the product
identifier, spatial bounds on two axes, temporal bounds, and the optional
crs, measurement subset, output CRS, resolution, resampling selector and
"like" template. -/
structure Query where
  product : String
  x : Coord × Coord
  y : Coord × Coord
  time : TimeRange
  crs : Option String := none
  measurements : Option (List String) := none
  output_crs : Option String := none
  resolution : Option (Int × Int) := none
  resampling : Resampling := .dflt
  like : Option Dataset := none
deriving DecidableEq

/-- The datacube environment the external library encapsulates: the product
index, the reprojection of an extent from a source CRS into a target CRS,
the number of timesteps the index holds for a time range, and the pixel
values produced for one measurement by a resampling method on a grid of a
given (time, y, x) shape.  All of these live inside the external library;
theorems below hold for every environment. -/
structure Env where
  products : List (String × Product)
  project : String → String → Extent → Extent
  timeCount : TimeRange → Nat
  sample : String → String → String → Nat × Nat × Nat → List Int

/-- Number of pixels an axis extent yields at a given pixel size: the
width of the extent divided by the absolute pixel size, rounded up. -/
def axisPixels (b : Coord × Coord) (step : Int) : Nat :=
  if step = 0 then 0
  else ((b.2 - b.1).natAbs + step.natAbs - 1) / step.natAbs

/-- Modelled from the spec: the measurement names a query requests.
Absence of `measurements` implies all measurements of the product. -/
def reqNames (q : Query) (prod : Product) : List String :=
  q.measurements.getD (prod.measurements.map Measurement.name)

/-- The product measurement carrying a requested name, when the product
defines one. -/
def findMeas (prod : Product) (n : String) : Option Measurement :=
  prod.measurements.find? (fun m => m.name = n)

/-- Resolves every requested name against the product's measurement table;
fails when a requested measurement is not defined for the product. -/
def resolveMeas (prod : Product) : List String → Option (List Measurement)
  | [] => some []
  | n :: ns =>
    match findMeas prod n, resolveMeas prod ns with
    | some m, some ms => some (m :: ms)
    | _, _ => none

/-- Modelled from the spec: the CRS the returned dataset is reported in.
A "like" template supplies its own CRS; otherwise the supplied
`output_crs` when present, else the product's native CRS. -/
def resultCrs (q : Query) (prod : Product) : String :=
  match q.like with
  | some d => d.crs
  | none => q.output_crs.getD prod.crs

/-- Modelled from the spec: the grid resolution of the returned dataset.
A "like" template supplies its own; otherwise the supplied `resolution`
when present, else the product's native resolution. -/
def resultRes (q : Query) (prod : Product) : Int × Int :=
  match q.like with
  | some d => d.resolution
  | none => q.resolution.getD prod.resolution

/-- Modelled from the spec: the (time, y, x) shape of the returned grid.
A "like" template's footprint is matched exactly; otherwise the query's
x and y bounds, interpreted in `crs` when supplied and in the default
WGS84 / EPSG:4326 otherwise, are projected into the output CRS and divided
by the pixel size. -/
def resultShape (env : Env) (q : Query) (prod : Product) : Nat × Nat × Nat :=
  match q.like with
  | some d => (d.tdim, d.ydim, d.xdim)
  | none =>
    let qcrs := q.crs.getD "EPSG:4326"
    let res := resultRes q prod
    let ext := env.project qcrs (resultCrs q prod) ⟨q.x, q.y⟩
    (env.timeCount q.time, axisPixels ext.y res.1, axisPixels ext.x res.2)

/-- One per-measurement sub-array of a load result: it inherits the
measurement's name and nodata sentinel, carries the dataset CRS, and holds
the values the environment produces for the resampling method this query
resolves for the measurement. -/
def mkVar (env : Env) (q : Query) (crs : String) (shape : Nat × Nat × Nat)
    (m : Measurement) : DataArray :=
  { name := m.name, nodata := m.nodata, units := "1", crs := crs,
    values := env.sample (q.resampling.resolve m.name) q.product m.name shape }

/-- Modelled from the spec: the external Open Data Cube load operation
(`dc.load`).  It looks the product up in the index, resolves the requested
measurement names (all of the product's measurements when the query has
none), determines the output grid and CRS (from the "like" template when
one is given), and returns one sub-array per requested measurement, in
request order.  It fails when the product or a requested measurement is
unknown. -/
def load (env : Env) (q : Query) : Option Dataset :=
  match env.products.lookup q.product with
  | none => none
  | some prod =>
    match resolveMeas prod (reqNames q prod) with
    | none => none
    | some meas =>
      let shape := resultShape env q prod
      some { tdim := shape.1, ydim := shape.2.1, xdim := shape.2.2,
             crs := resultCrs q prod, resolution := resultRes q prod,
             dataVars := meas.map (mkVar env q (resultCrs q prod) shape) }

/-- A keyword argument of a load call, as stored in a Python query
dictionary to be unpacked with `**`. -/
inductive KV where
  | x (v : Coord × Coord) : KV
  | y (v : Coord × Coord) : KV
  | time (v : TimeRange) : KV
  | crs (v : String) : KV
  | measurements (v : List String) : KV
  | output_crs (v : String) : KV
  | resolution (v : Int × Int) : KV
  | resampling (v : Resampling) : KV
  | like (v : Dataset) : KV
deriving DecidableEq

/-- Applying one keyword argument to a query under construction. -/
def applyKV (q : Query) : KV → Query
  | .x v => { q with x := v }
  | .y v => { q with y := v }
  | .time v => { q with time := v }
  | .crs v => { q with crs := some v }
  | .measurements v => { q with measurements := some v }
  | .output_crs v => { q with output_crs := some v }
  | .resolution v => { q with resolution := some v }
  | .resampling v => { q with resampling := v }
  | .like v => { q with like := some v }

/-- Unpacking a query dictionary into a load call: each entry becomes a
keyword argument. -/
def applyKVs (q : Query) (kvs : List KV) : Query := kvs.foldl applyKV q

/-! ### Basic lemmas about measurement resolution -/

theorem findMeas_name {prod : Product} {n : String} {m : Measurement}
    (h : findMeas prod n = some m) : m.name = n := by
  have := List.find?_some h
  simpa using this

theorem findMeas_mem {prod : Product} {n : String} {m : Measurement}
    (h : findMeas prod n = some m) : m ∈ prod.measurements :=
  List.mem_of_find?_eq_some h

theorem resolveMeas_names {prod : Product} :
    ∀ {ns : List String} {meas : List Measurement},
      resolveMeas prod ns = some meas → meas.map Measurement.name = ns := by
  intro ns
  induction ns with
  | nil =>
    intro meas h
    simp only [resolveMeas, Option.some.injEq] at h
    subst h
    rfl
  | cons n ns ih =>
    intro meas h
    simp only [resolveMeas] at h
    cases hf : findMeas prod n with
    | none => rw [hf] at h; simp at h
    | some m =>
      rw [hf] at h
      cases hr : resolveMeas prod ns with
      | none => rw [hr] at h; simp at h
      | some ms =>
        rw [hr] at h
        simp only [Option.some.injEq] at h
        subst h
        simp [findMeas_name hf, ih hr]

theorem resolveMeas_mem {prod : Product} :
    ∀ {ns : List String} {meas : List Measurement},
      resolveMeas prod ns = some meas →
        ∀ m ∈ meas, m ∈ prod.measurements := by
  intro ns
  induction ns with
  | nil =>
    intro meas h
    simp only [resolveMeas, Option.some.injEq] at h
    subst h
    simp
  | cons n ns ih =>
    intro meas h
    simp only [resolveMeas] at h
    cases hf : findMeas prod n with
    | none => rw [hf] at h; simp at h
    | some m =>
      rw [hf] at h
      cases hr : resolveMeas prod ns with
      | none => rw [hr] at h; simp at h
      | some ms =>
        rw [hr] at h
        simp only [Option.some.injEq] at h
        subst h
        intro a ha
        rcases List.mem_cons.mp ha with rfl | ha
        · exact findMeas_mem hf
        · exact ih hr a ha

/-- Characterisation of a successful load in terms of its pieces. -/
theorem load_eq_some {env : Env} {q : Query} {prod : Product}
    {meas : List Measurement}
    (hp : env.products.lookup q.product = some prod)
    (hm : resolveMeas prod (reqNames q prod) = some meas) :
    load env q =
      some { tdim := (resultShape env q prod).1,
             ydim := (resultShape env q prod).2.1,
             xdim := (resultShape env q prod).2.2,
             crs := resultCrs q prod, resolution := resultRes q prod,
             dataVars :=
               meas.map (mkVar env q (resultCrs q prod) (resultShape env q prod)) } := by
  simp [load, hp, hm]

/-- A successful load determines the dataset from the product and the
resolved measurements. -/
theorem load_some_elim {env : Env} {q : Query} {ds : Dataset}
    (h : load env q = some ds) :
    ∃ prod meas,
      env.products.lookup q.product = some prod ∧
      resolveMeas prod (reqNames q prod) = some meas ∧
      ds = { tdim := (resultShape env q prod).1,
             ydim := (resultShape env q prod).2.1,
             xdim := (resultShape env q prod).2.2,
             crs := resultCrs q prod, resolution := resultRes q prod,
             dataVars :=
               meas.map (mkVar env q (resultCrs q prod) (resultShape env q prod)) } := by
  cases hp : env.products.lookup q.product with
  | none => simp [load, hp] at h
  | some prod =>
    cases hm : resolveMeas prod (reqNames q prod) with
    | none => simp [load, hp, hm] at h
    | some meas =>
      simp only [load, hp, hm, Option.some.injEq] at h
      exact ⟨prod, meas, rfl, hm, h.symm⟩

/-! ### A concrete demonstration environment, mirroring the notebook -/

/-- The six Landsat geomedian measurements, each with nodata -999. -/
def lsMeasurements : List Measurement :=
  [⟨"blue", -999⟩, ⟨"green", -999⟩, ⟨"red", -999⟩,
   ⟨"nir", -999⟩, ⟨"swir1", -999⟩, ⟨"swir2", -999⟩]

/-- The Landsat 8 annual geomedian product: native CRS EPSG:3577,
native 25 m resolution. -/
def ls8 : Product :=
  ⟨"ls8_nbart_geomedian_annual", "EPSG:3577", (-25, 25), lsMeasurements⟩

/-- The Landsat 7 annual geomedian product. -/
def ls7 : Product :=
  ⟨"ls7_nbart_geomedian_annual", "EPSG:3577", (-25, 25), lsMeasurements⟩

/-- A concrete reprojection for the demonstration environment. -/
def demoProject (src dst : String) (e : Extent) : Extent :=
  if src = dst then e
  else if dst = "EPSG:32756" then ⟨(529600, 539400), (6947000, 6958000)⟩
  else ⟨(2067000, 2079000), (-3168000, -3156000)⟩

/-- Concrete pixel values for the demonstration environment, depending on
the resampling method, the product, the measurement and the grid shape. -/
def demoSample (method pname band : String) (shape : Nat × Nat × Nat) : List Int :=
  [Int.ofNat (method.length + 2 * band.length + 3 * pname.length),
   Int.ofNat (shape.1 + shape.2.1 + shape.2.2),
   if method = "nearest" then 0 else 1]

/-- The demonstration environment: the two products the notebook loads
from, one annual timestep per query. -/
def demoEnv : Env :=
  { products := [("ls8_nbart_geomedian_annual", ls8),
                 ("ls7_nbart_geomedian_annual", ls7)],
    project := demoProject,
    timeCount := fun _ => 1,
    sample := demoSample }

/-- The 2015 calendar-year time range the notebook queries. -/
def y2015 : TimeRange := ⟨"2015-01-01", "2015-12-31"⟩

/-- The basic notebook query: Moreton Bay bounds, 2015, all defaults. -/
def baseQuery : Query :=
  { product := "ls8_nbart_geomedian_annual",
    x := (153, 154), y := (-28, -27), time := y2015 }

/-- An empty placeholder dataset. -/
def emptyDs : Dataset := ⟨0, 0, 0, "", (0, 0), []⟩

/-- The notebook's RGB query: an explicit measurement list. -/
def rgbQuery : Query :=
  { baseQuery with measurements := some ["red", "green", "blue"] }

/-- The dataset the demonstration environment returns for the RGB query. -/
def rgbDs : Dataset := (load demoEnv rgbQuery).getD emptyDs

/-- The dataset the demonstration environment returns for the basic query. -/
def baseDs : Dataset := (load demoEnv baseQuery).getD emptyDs

/-! ### Shared consequences of a successful load -/

/-- The variable names of a successful load are exactly the requested
measurement names. -/
theorem load_varNames {env : Env} {q : Query} {ds : Dataset}
    (h : load env q = some ds) :
    ∃ prod, env.products.lookup q.product = some prod ∧
      ds.dataVars.map DataArray.name = reqNames q prod := by
  obtain ⟨prod, meas, hp, hm, rfl⟩ := load_some_elim h
  refine ⟨prod, hp, ?_⟩
  have hnames := resolveMeas_names hm
  simp only [List.map_map]
  have : DataArray.name ∘ mkVar env q (resultCrs q prod) (resultShape env q prod)
      = Measurement.name := by
    funext m; rfl
  rw [this, hnames]

/-! ### Claim theorems -/

/-- Claim C1: a load call supplying a non-empty `measurements` list returns
a dataset whose set of data variables is exactly the set of names in the
list: no extra variables, none missing. -/
theorem load_measurements_exact_set (env : Env) (q : Query) (ms : List String)
    (ds : Dataset) (hms : q.measurements = some ms) (hne : ms ≠ [])
    (hld : load env q = some ds) :
    ∀ n : String, n ∈ ds.dataVars.map DataArray.name ↔ n ∈ ms := by
  obtain ⟨prod, hp, hn⟩ := load_varNames hld
  rw [hn]
  simp [reqNames, hms]

/-- Witness for C1: the RGB query of the notebook, in the demonstration
environment, returns exactly the variables red, green and blue. -/
theorem load_measurements_exact_set_witness :
    rgbQuery.measurements = some ["red", "green", "blue"] ∧
    (["red", "green", "blue"] : List String) ≠ [] ∧
    load demoEnv rgbQuery = some rgbDs ∧
    ("red" ∈ rgbDs.dataVars.map DataArray.name ↔ "red" ∈ ["red", "green", "blue"]) :=
  ⟨rfl, by decide, by decide,
   load_measurements_exact_set demoEnv rgbQuery ["red", "green", "blue"] rgbDs
     rfl (by decide) (by decide) "red"⟩

/-- Claim C9: a load call supplying a `measurements` list returns its data
variables in the order the measurements were requested. -/
theorem load_measurements_order (env : Env) (q : Query) (ms : List String)
    (ds : Dataset) (hms : q.measurements = some ms)
    (hld : load env q = some ds) :
    ds.dataVars.map DataArray.name = ms := by
  obtain ⟨prod, hp, hn⟩ := load_varNames hld
  rw [hn]
  simp [reqNames, hms]

/-- Witness for C9: the RGB query returns the variables in request order
red, green, blue, not in the product order blue, green, red. -/
theorem load_measurements_order_witness :
    rgbQuery.measurements = some ["red", "green", "blue"] ∧
    load demoEnv rgbQuery = some rgbDs ∧
    rgbDs.dataVars.map DataArray.name = ["red", "green", "blue"] :=
  ⟨rfl, by decide,
   load_measurements_order demoEnv rgbQuery ["red", "green", "blue"] rgbDs
     rfl (by decide)⟩

/-- Claim C4: a load call with the `measurements` parameter absent returns
one data variable for every measurement the requested product defines. -/
theorem load_all_measurements (env : Env) (q : Query) (prod : Product)
    (ds : Dataset) (hms : q.measurements = none)
    (hp : env.products.lookup q.product = some prod)
    (hld : load env q = some ds) :
    ds.dataVars.map DataArray.name = prod.measurements.map Measurement.name := by
  obtain ⟨prod2, hp2, hn⟩ := load_varNames hld
  rw [hp] at hp2
  obtain rfl : prod = prod2 := Option.some.inj hp2
  rw [hn]
  simp [reqNames, hms]

/-- Witness for C4: the basic notebook query, with no measurement list,
returns all six Landsat bands. -/
theorem load_all_measurements_witness :
    baseQuery.measurements = none ∧
    demoEnv.products.lookup baseQuery.product = some ls8 ∧
    load demoEnv baseQuery = some baseDs ∧
    baseDs.dataVars.map DataArray.name = ls8.measurements.map Measurement.name :=
  ⟨rfl, by decide, by decide,
   load_all_measurements demoEnv baseQuery ls8 baseDs rfl (by decide) (by decide)⟩

/-- Claim C3: when the `crs` parameter is absent, the query's x and y
coordinates are interpreted in the default WGS84 / EPSG:4326 system: the
load behaves exactly as if `crs="EPSG:4326"` had been supplied, whatever
the stored data's projection and whatever `output_crs` says. -/
theorem load_default_crs (env : Env) (q : Query) (h : q.crs = none) :
    load env q = load env { q with crs := some "EPSG:4326" } := by
  obtain ⟨p, x, y, t, c, ms, oc, r, rs, lk⟩ := q
  simp only at h
  subst h
  simp only [load, reqNames, resultShape, resultCrs, resultRes, mkVar,
    Option.getD_some, Option.getD_none]
  rfl

/-- Witness for C3: the basic notebook query carries no `crs` parameter
and loads identically to its EPSG:4326-explicit form. -/
theorem load_default_crs_witness :
    baseQuery.crs = none ∧
    load demoEnv baseQuery
      = load demoEnv { baseQuery with crs := some "EPSG:4326" } :=
  ⟨rfl, load_default_crs demoEnv baseQuery rfl⟩

/-- Claim C7: every per-measurement sub-array of a load result carries a
nodata sentinel and a CRS attribute, the nodata being the one the product
defines for that measurement and the CRS equalling the crs attribute of
the containing dataset. -/
theorem load_vars_attrs (env : Env) (q : Query) (prod : Product)
    (ds : Dataset)
    (hp : env.products.lookup q.product = some prod)
    (hld : load env q = some ds) :
    ∀ da ∈ ds.dataVars,
      da.crs = ds.crs ∧
      ∃ m ∈ prod.measurements, da.name = m.name ∧ da.nodata = m.nodata := by
  obtain ⟨prod2, meas, hp2, hm, rfl⟩ := load_some_elim hld
  rw [hp] at hp2
  obtain rfl : prod = prod2 := Option.some.inj hp2
  intro da hda
  simp only [List.mem_map] at hda
  obtain ⟨m, hmem, rfl⟩ := hda
  exact ⟨rfl, m, resolveMeas_mem hm m hmem, rfl, rfl⟩

/-- The first sub-array of the demonstration basic load. -/
def demoDa : DataArray := baseDs.dataVars.headD ⟨"", 0, "", "", []⟩

/-- Witness for C7: the first sub-array of the basic demonstration load
carries nodata -999 and the dataset's own CRS EPSG:3577. -/
theorem load_vars_attrs_witness :
    demoEnv.products.lookup baseQuery.product = some ls8 ∧
    load demoEnv baseQuery = some baseDs ∧
    demoDa ∈ baseDs.dataVars ∧
    (demoDa.crs = baseDs.crs ∧
      ∃ m ∈ ls8.measurements, demoDa.name = m.name ∧ demoDa.nodata = m.nodata) :=
  ⟨by decide, by decide, by decide,
   load_vars_attrs demoEnv baseQuery ls8 baseDs (by decide) (by decide)
     demoDa (by decide)⟩

/-- Claim C8: a load call supplying `resolution` but omitting `output_crs`
succeeds and keeps the product's native CRS; only the grid resolution
(hence the pixel counts) changes. -/
theorem load_native_crs (env : Env) (q : Query) (prod : Product)
    (ds : Dataset) (r : Int × Int)
    (hres : q.resolution = some r) (hoc : q.output_crs = none)
    (hlk : q.like = none)
    (hp : env.products.lookup q.product = some prod)
    (hld : load env q = some ds) :
    ds.crs = prod.crs ∧ ds.resolution = r := by
  obtain ⟨prod2, meas, hp2, hm, rfl⟩ := load_some_elim hld
  rw [hp] at hp2
  obtain rfl : prod = prod2 := Option.some.inj hp2
  constructor
  · simp [resultCrs, hlk, hoc]
  · simp [resultRes, hlk, hres]

/-- Ceiling division gets no larger when the divisor grows. -/
theorem ceilDiv_anti {w d₁ d₂ : Nat} (h₁ : 0 < d₁) (h : d₁ ≤ d₂) :
    (w + d₂ - 1) / d₂ ≤ (w + d₁ - 1) / d₁ := by
  have h₂ : 0 < d₂ := lt_of_lt_of_le h₁ h
  set q := (w + d₁ - 1) / d₁ with hq
  have hdm := Nat.div_add_mod (w + d₁ - 1) d₁
  have hlt := Nat.mod_lt (w + d₁ - 1) h₁
  have e1 : w + d₁ - 1 = w + (d₁ - 1) := Nat.add_sub_assoc h₁ w
  have hw1 : w ≤ d₁ * q := by
    have e2 : d₁ * q + (w + d₁ - 1) % d₁ = w + (d₁ - 1) := by
      rw [← e1]; exact hdm
    have hr : (w + d₁ - 1) % d₁ ≤ d₁ - 1 := Nat.le_pred_of_lt hlt
    have : w + (d₁ - 1) ≤ d₁ * q + (d₁ - 1) := by
      rw [← e2]
      exact Nat.add_le_add_left hr _
    exact Nat.le_of_add_le_add_right this
  have hw2 : w ≤ d₂ * q := le_trans hw1 (Nat.mul_le_mul_right q h)
  rw [Nat.div_le_iff_le_mul_add_pred h₂]
  have e3 : w + d₂ - 1 = w + (d₂ - 1) := Nat.add_sub_assoc h₂ w
  rw [e3]
  exact Nat.add_le_add_right hw2 _

/-- Pixel counts are antitone in the absolute pixel size. -/
theorem axisPixels_anti (b : Coord × Coord) {s₁ s₂ : Int}
    (h₁ : s₁ ≠ 0) (h : s₁.natAbs ≤ s₂.natAbs) :
    axisPixels b s₂ ≤ axisPixels b s₁ := by
  have ha₁ : 0 < s₁.natAbs := Int.natAbs_pos.mpr h₁
  have hs₂ : s₂ ≠ 0 := by
    intro h0
    rw [h0] at h
    simp at h
    exact h₁ (Int.natAbs_eq_zero.mp (Nat.le_zero.mp (h ▸ ha₁.le)))
  unfold axisPixels
  rw [if_neg h₁, if_neg hs₂]
  exact ceilDiv_anti ha₁ h

/-- Ceiling division drops strictly when the divisor at least doubles and
the dividend is at least the large divisor. -/
theorem ceilDiv_strict_anti {w d₁ d₂ : Nat} (h1 : 0 < d₁)
    (h2 : 2 * d₁ ≤ d₂) (h3 : d₂ ≤ w) :
    (w + d₂ - 1) / d₂ < (w + d₁ - 1) / d₁ := by
  have hd2 : 0 < d₂ := by omega
  set c := (w + d₂ - 1) / d₂ with hc
  have hub : d₂ * c ≤ w + d₂ - 1 := by
    rw [hc, Nat.mul_comm]
    exact Nat.div_mul_le_self _ _
  have h4 : 2 * d₁ * c ≤ d₂ * c := Nat.mul_le_mul_right c h2
  have key : d₁ * c < w := by
    have h6 : 2 * (d₁ * c) ≤ w + d₂ - 1 :=
      le_trans (le_of_eq (Nat.mul_assoc 2 d₁ c).symm) (le_trans h4 hub)
    generalize d₁ * c = a at h6 ⊢
    omega
  have hstep : c + 1 ≤ (w + d₁ - 1) / d₁ := by
    rw [Nat.le_div_iff_mul_le h1, Nat.add_mul, Nat.one_mul, Nat.mul_comm c d₁]
    generalize d₁ * c = a at key ⊢
    omega
  omega

/-- Pixel counts drop strictly when the absolute pixel size at least
doubles and the extent spans at least one of the coarser pixels. -/
theorem axisPixels_strict_anti (b : Coord × Coord) {s₁ s₂ : Int}
    (h₁ : s₁ ≠ 0) (h2 : 2 * s₁.natAbs ≤ s₂.natAbs)
    (h3 : s₂.natAbs ≤ (b.2 - b.1).natAbs) :
    axisPixels b s₂ < axisPixels b s₁ := by
  have ha₁ : 0 < s₁.natAbs := Int.natAbs_pos.mpr h₁
  have hs₂ : s₂ ≠ 0 := by
    intro h0
    rw [h0, Int.natAbs_zero] at h2
    omega
  unfold axisPixels
  rw [if_neg h₁, if_neg hs₂]
  exact ceilDiv_strict_anti ha₁ h2 h3

/-- The spatial extent a query covers, projected into the output CRS. -/
def projExtent (env : Env) (q : Query) (ocrs : String) : Extent :=
  env.project (q.crs.getD "EPSG:4326") ocrs ⟨q.x, q.y⟩

/-- Claim C5: a load call supplying both `output_crs` and `resolution`
returns a dataset whose crs attribute is the supplied output CRS, and the
pixel counts along y and x change with the resolution: a pixel size at
least as large in absolute value yields at most as many pixels, and a
pixel size at least twice as large yields strictly fewer pixels whenever
the projected extent spans at least one of the coarser pixels. -/
theorem load_output_crs_resolution (env : Env) (q : Query) (ocrs : String)
    (r₁ r₂ : Int × Int) (ds₁ ds₂ : Dataset)
    (hlk : q.like = none) (hoc : q.output_crs = some ocrs)
    (h₁ : load env { q with resolution := some r₁ } = some ds₁)
    (h₂ : load env { q with resolution := some r₂ } = some ds₂) :
    ds₁.crs = ocrs ∧ ds₂.crs = ocrs ∧
    (r₁.1 ≠ 0 → r₁.1.natAbs ≤ r₂.1.natAbs → ds₂.ydim ≤ ds₁.ydim) ∧
    (r₁.2 ≠ 0 → r₁.2.natAbs ≤ r₂.2.natAbs → ds₂.xdim ≤ ds₁.xdim) ∧
    (r₁.1 ≠ 0 → 2 * r₁.1.natAbs ≤ r₂.1.natAbs →
      r₂.1.natAbs ≤ ((projExtent env q ocrs).y.2 - (projExtent env q ocrs).y.1).natAbs →
      ds₂.ydim < ds₁.ydim) ∧
    (r₁.2 ≠ 0 → 2 * r₁.2.natAbs ≤ r₂.2.natAbs →
      r₂.2.natAbs ≤ ((projExtent env q ocrs).x.2 - (projExtent env q ocrs).x.1).natAbs →
      ds₂.xdim < ds₁.xdim) := by
  obtain ⟨prodA, measA, hpA, hmA, rfl⟩ := load_some_elim h₁
  obtain ⟨prodB, measB, hpB, hmB, rfl⟩ := load_some_elim h₂
  have hpe : prodA = prodB := by
    rw [hpA] at hpB
    exact Option.some.inj hpB
  subst hpe
  refine ⟨?_, ?_, ?_, ?_, ?_, ?_⟩
  · simp [resultCrs, hlk, hoc]
  · simp [resultCrs, hlk, hoc]
  · intro hz hle
    simp only [resultShape, resultRes, resultCrs, hlk, hoc, Option.getD_some]
    exact axisPixels_anti _ hz hle
  · intro hz hle
    simp only [resultShape, resultRes, resultCrs, hlk, hoc, Option.getD_some]
    exact axisPixels_anti _ hz hle
  · intro hz hle hspan
    simp only [projExtent] at hspan
    simp only [resultShape, resultRes, resultCrs, hlk, hoc, Option.getD_some]
    exact axisPixels_strict_anti _ hz hle hspan
  · intro hz hle hspan
    simp only [projExtent] at hspan
    simp only [resultShape, resultRes, resultCrs, hlk, hoc, Option.getD_some]
    exact axisPixels_strict_anti _ hz hle hspan

/-- The notebook's reprojection query: output CRS EPSG:32756. -/
def reprojQuery : Query := { baseQuery with output_crs := some "EPSG:32756" }

/-- The reprojection query at the product's native 25 m resolution. -/
def reprojDs25 : Dataset :=
  (load demoEnv { reprojQuery with resolution := some (-25, 25) }).getD emptyDs

/-- The reprojection query at the notebook's 250 m resolution. -/
def reprojDs250 : Dataset :=
  (load demoEnv { reprojQuery with resolution := some (-250, 250) }).getD emptyDs

/-- Witness for C5: reprojecting to EPSG:32756 reports that CRS, and the
larger 250 m pixels give strictly fewer pixels than 25 m pixels on both
axes (44 against 440 rows, 40 against 392 columns). -/
theorem load_output_crs_resolution_witness :
    reprojQuery.like = none ∧
    reprojQuery.output_crs = some "EPSG:32756" ∧
    load demoEnv { reprojQuery with resolution := some (-25, 25) }
      = some reprojDs25 ∧
    load demoEnv { reprojQuery with resolution := some (-250, 250) }
      = some reprojDs250 ∧
    reprojDs25.crs = "EPSG:32756" ∧ reprojDs250.crs = "EPSG:32756" ∧
    reprojDs250.ydim < reprojDs25.ydim ∧ reprojDs250.xdim < reprojDs25.xdim := by
  have h := load_output_crs_resolution demoEnv reprojQuery "EPSG:32756"
    (-25, 25) (-250, 250) reprojDs25 reprojDs250 rfl rfl (by decide) (by decide)
  exact ⟨rfl, rfl, by decide, by decide, h.1, h.2.1,
    h.2.2.2.2.1 (by decide) (by decide) (by decide),
    h.2.2.2.2.2 (by decide) (by decide) (by decide)⟩

/-- The notebook's resolution-only query: 250 m pixels, no output CRS. -/
def resOnlyQuery : Query := { baseQuery with resolution := some (-250, 250) }

/-- The dataset the demonstration environment returns for the
resolution-only query. -/
def resOnlyDs : Dataset := (load demoEnv resOnlyQuery).getD emptyDs

/-- Witness for C8: the resolution-only query succeeds and keeps the
native CRS EPSG:3577 while adopting the 250 m resolution. -/
theorem load_native_crs_witness :
    resOnlyQuery.resolution = some (-250, 250) ∧
    resOnlyQuery.output_crs = none ∧
    resOnlyQuery.like = none ∧
    demoEnv.products.lookup resOnlyQuery.product = some ls8 ∧
    load demoEnv resOnlyQuery = some resOnlyDs ∧
    (resOnlyDs.crs = ls8.crs ∧ resOnlyDs.resolution = (-250, 250)) :=
  ⟨rfl, rfl, rfl, by decide, by decide,
   load_native_crs demoEnv resOnlyQuery ls8 resOnlyDs (-250, 250)
     rfl rfl rfl (by decide) (by decide)⟩

/-- Claim C2: loading with `like=` a previously loaded dataset reproduces
that dataset's dimensions (time, y, x sizes) and CRS exactly. -/
theorem load_like_matches (env : Env) (q1 q2 : Query) (ds1 ds2 : Dataset)
    (h1lk : q1.like = none) (hld1 : load env q1 = some ds1)
    (h2lk : q2.like = some ds1) (hld2 : load env q2 = some ds2) :
    ds2.tdim = ds1.tdim ∧ ds2.ydim = ds1.ydim ∧ ds2.xdim = ds1.xdim ∧
    ds2.crs = ds1.crs := by
  obtain ⟨prod, meas, hp, hm, rfl⟩ := load_some_elim hld2
  simp [resultShape, resultCrs, h2lk]

/-- The notebook's explicit-parameter query: EPSG:32756 at 250 m. -/
def explicitQuery : Query :=
  { baseQuery with output_crs := some "EPSG:32756",
                   resolution := some (-250, 250) }

/-- The dataset the explicit-parameter query loads. -/
def explicitDs : Dataset := (load demoEnv explicitQuery).getD emptyDs

/-- The notebook's template query: Landsat 7 like the Landsat 8 result. -/
def ls7LikeQuery : Query :=
  { baseQuery with product := "ls7_nbart_geomedian_annual",
                   like := some explicitDs }

/-- The dataset the template query loads. -/
def likeDs : Dataset := (load demoEnv ls7LikeQuery).getD emptyDs

/-- Witness for C2: the Landsat 7 like-load reproduces the dimensions and
CRS of the explicitly parameterised Landsat 8 load. -/
theorem load_like_matches_witness :
    explicitQuery.like = none ∧
    load demoEnv explicitQuery = some explicitDs ∧
    ls7LikeQuery.like = some explicitDs ∧
    load demoEnv ls7LikeQuery = some likeDs ∧
    (likeDs.tdim = explicitDs.tdim ∧ likeDs.ydim = explicitDs.ydim ∧
     likeDs.xdim = explicitDs.xdim ∧ likeDs.crs = explicitDs.crs) :=
  ⟨rfl, by decide, rfl, by decide,
   load_like_matches demoEnv explicitQuery ls7LikeQuery explicitDs likeDs
     rfl (by decide) rfl (by decide)⟩

/-! ### Per-measurement resampling -/

/-- The requested measurement names do not depend on the resampling
choice. -/
theorem reqNames_resampling (q : Query) (prod : Product) (v : Resampling) :
    reqNames { q with resampling := v } prod = reqNames q prod := rfl

/-- The grid shape a load uses does not depend on the resampling choice. -/
theorem resultShape_resampling (env : Env) (q : Query) (prod : Product)
    (v : Resampling) :
    resultShape env { q with resampling := v } prod = resultShape env q prod := rfl

/-- The reported CRS does not depend on the resampling choice. -/
theorem resultCrs_resampling (q : Query) (prod : Product) (v : Resampling) :
    resultCrs { q with resampling := v } prod = resultCrs q prod := rfl

/-- The reported resolution does not depend on the resampling choice. -/
theorem resultRes_resampling (q : Query) (prod : Product) (v : Resampling) :
    resultRes { q with resampling := v } prod = resultRes q prod := rfl

/-- The notebook's wildcard table resolves "red" to nearest neighbour and
every other band to average resampling. -/
theorem resolve_wildcard_table (n : String) :
    Resampling.resolve (.byBand [("red", "nearest"), ("*", "average")]) n
      = if n = "red" then "nearest" else "average" := by
  by_cases h : n = "red"
  · subst h; rfl
  · rw [if_neg h]
    by_cases h2 : n = "*"
    · subst h2; rfl
    · have hb1 : (n == "red") = false := by simp [h]
      have hb2 : (n == "*") = false := by simp [h2]
      simp only [Resampling.resolve, List.lookup, hb1, hb2]
      rfl

/-- Claim C6: under `resampling={"red": "nearest", "*": "average"}`, the
red band's values equal those of the same load under the default
(nearest-neighbour) resampling, and every other band's values equal those
of the same load under "average" resampling. -/
theorem load_resampling_table (env : Env) (q : Query) (ds d0 dA : Dataset)
    (hr : q.resampling = .byBand [("red", "nearest"), ("*", "average")])
    (hld : load env q = some ds)
    (h0 : load env { q with resampling := .dflt } = some d0)
    (hA : load env { q with resampling := .scalar "average" } = some dA) :
    ∀ i : Nat, ∀ da da0 daA : DataArray,
      ds.dataVars[i]? = some da → d0.dataVars[i]? = some da0 →
      dA.dataVars[i]? = some daA →
      (da.name = "red" → da.values = da0.values) ∧
      (da.name ≠ "red" → da.values = daA.values) := by
  obtain ⟨prod, meas, hp, hm, rfl⟩ := load_some_elim hld
  obtain ⟨prod0, meas0, hp0, hm0, rfl⟩ := load_some_elim h0
  obtain ⟨prodA, measA, hpA, hmA, rfl⟩ := load_some_elim hA
  rw [hp] at hp0 hpA
  obtain rfl : prod = prod0 := Option.some.inj hp0
  obtain rfl : prod = prodA := Option.some.inj hpA
  rw [reqNames_resampling, hm] at hm0 hmA
  obtain rfl : meas = meas0 := Option.some.inj hm0
  obtain rfl : meas = measA := Option.some.inj hmA
  intro i da da0 daA h1 h2 h3
  simp only [List.getElem?_map] at h1 h2 h3
  cases hmi : meas[i]? with
  | none => rw [hmi] at h1; simp at h1
  | some m =>
    rw [hmi] at h1 h2 h3
    simp only [Option.map_some', Option.some.injEq] at h1 h2 h3
    subst h1
    subst h2
    subst h3
    constructor
    · intro hred
      simp only [mkVar] at hred
      simp only [mkVar, hr]
      rw [resolve_wildcard_table, if_pos hred]
      rfl
    · intro hred
      simp only [mkVar] at hred
      simp only [mkVar, hr]
      rw [resolve_wildcard_table, if_neg hred]
      rfl

/-- The notebook's custom-resampling query: nearest for red, average for
every other band, reprojected to EPSG:32756 at 250 m. -/
def customResQuery : Query :=
  { explicitQuery with
      resampling := .byBand [("red", "nearest"), ("*", "average")] }

/-- The dataset the custom-resampling query loads. -/
def customResDs : Dataset := (load demoEnv customResQuery).getD emptyDs

/-- The same load under default resampling. -/
def customResDs0 : Dataset :=
  (load demoEnv { customResQuery with resampling := .dflt }).getD emptyDs

/-- The same load under scalar average resampling. -/
def customResDsA : Dataset :=
  (load demoEnv { customResQuery with resampling := .scalar "average" }).getD emptyDs

/-- A placeholder sub-array used as a getD default. -/
def dfltDa : DataArray := ⟨"", 0, "", "", []⟩

/-- The red band (index 2) of the wildcard-resampled demonstration load. -/
def redDa : DataArray := customResDs.dataVars.getD 2 dfltDa

/-- The red band of the default-resampled demonstration load. -/
def redDa0 : DataArray := customResDs0.dataVars.getD 2 dfltDa

/-- The red band of the average-resampled demonstration load. -/
def redDaA : DataArray := customResDsA.dataVars.getD 2 dfltDa

/-- The blue band (index 0) of the wildcard-resampled demonstration load. -/
def blueDa : DataArray := customResDs.dataVars.getD 0 dfltDa

/-- The blue band of the default-resampled demonstration load. -/
def blueDa0 : DataArray := customResDs0.dataVars.getD 0 dfltDa

/-- The blue band of the average-resampled demonstration load. -/
def blueDaA : DataArray := customResDsA.dataVars.getD 0 dfltDa

/-- Witness for C6: in the demonstration environment, the red band of the
wildcard-resampled load equals the default load's red band, and the blue
band equals the average load's blue band. -/
theorem load_resampling_table_witness :
    customResQuery.resampling
      = Resampling.byBand [("red", "nearest"), ("*", "average")] ∧
    load demoEnv customResQuery = some customResDs ∧
    load demoEnv { customResQuery with resampling := .dflt }
      = some customResDs0 ∧
    load demoEnv { customResQuery with resampling := .scalar "average" }
      = some customResDsA ∧
    redDa.name = "red" ∧ redDa.values = redDa0.values ∧
    blueDa.name = "blue" ∧ blueDa.values = blueDaA.values :=
  ⟨rfl, by decide, by decide, by decide, by decide,
   (load_resampling_table demoEnv customResQuery customResDs customResDs0
      customResDsA rfl (by decide) (by decide) (by decide) 2 redDa redDa0 redDaA
      (by decide) (by decide) (by decide)).1 (by decide),
   by decide,
   (load_resampling_table demoEnv customResQuery customResDs customResDs0
      customResDsA rfl (by decide) (by decide) (by decide) 0 blueDa blueDa0
      blueDaA (by decide) (by decide) (by decide)).2 (by decide)⟩

/-- Claim C10: the load operation is deterministic, and passing the query
parameters directly or unpacking them from a query dictionary makes no
difference: both calls return identical datasets. -/
theorem load_deterministic (env : Env) (q b : Query) (kvs : List KV)
    (h : q = applyKVs b kvs) :
    load env q = load env (applyKVs b kvs) := by
  rw [h]

/-- The base record the query dictionary is applied to. -/
def dictBase : Query :=
  { product := "ls8_nbart_geomedian_annual",
    x := (0, 0), y := (0, 0), time := y2015 }

/-- The notebook's reusable query dictionary. -/
def queryKVs : List KV := [.x (153, 154), .y (-28, -27)]

/-- Witness for C10: the basic query passed directly and the same
parameters unpacked from the query dictionary load identically. -/
theorem load_deterministic_witness :
    baseQuery = applyKVs dictBase queryKVs ∧
    load demoEnv baseQuery = load demoEnv (applyKVs dictBase queryKVs) :=
  ⟨by decide, load_deterministic demoEnv baseQuery dictBase queryKVs (by decide)⟩
